import Mathlib

/-!
Shallow embedding of the TARDIS HTCondor site adapter
(`src/tardis/adapters/sites/htcondor.py`) and proofs of its
specification's claims about the status-reconciliation core.

Timestamps (`datetime` values in the source) are embedded as integers;
the source only compares them through subtraction and sign tests
(`(a - b).total_seconds() < 0`), which integers model exactly.
Python exceptions become an explicit `PyException` type, and
exception-raising code returns `Except PyException _`.
-/

namespace Tardis

/-- `ResourceStatus` enumeration from `interfaces/siteadapter.py`
(the closed canonical lifecycle enumeration of the spec, Section 3). -/
inductive ResourceStatus where
  | Booting
  | Running
  | Stopped
  | Deleted
  | Error
deriving DecidableEq, Repr

/-- Result of `executor.run_command`: the spec's executor capability returns
a record with `stdout` and `exit_status` (Section 6). -/
structure CommandResult where
  stdout : String
  exit_status : Int
deriving DecidableEq, Repr

/-- The exceptions that appear in `htcondor.py`:
`CommandExecutionFailure` (from `exceptions/executorexceptions.py`),
`TardisError` and `TardisResourceStatusUpdateFailed` (from
`exceptions/tardisexceptions.py`), plus Python's built-in `KeyError` and
`ValueError`. `raise TardisError from ex` is modelled by the `TardisError`
constructor carrying its cause. -/
inductive PyException where
  | CommandExecutionFailure (message : String)
  | TardisResourceStatusUpdateFailed
  | TardisError (cause : PyException)
  | KeyError
  | ValueError (message : String)
deriving DecidableEq, Repr

/-- One row of `condor_q -af:t Owner JobStatus ClusterId ProcId` output as
produced by `csv.DictReader` with `fieldnames=('Owner', 'JobStatus',
'ClusterId', 'ProcId')` and tab delimiter (htcondor.py lines 22-37): fields
are matched by position; a field missing from a short row is `none`. -/
structure RawRecord where
  Owner : Option String
  JobStatus : Option String
  ClusterId : Option String
  ProcId : Option String
deriving DecidableEq, Repr

/-- The `htcondor_queue` dictionary: resource identifier (an `int` in the
source, `int(row['ClusterId'])`) to raw record, embedded as an association
list with Python-dict lookup/overwrite semantics. -/
abbrev Snapshot := List (Int × RawRecord)

/-- Dictionary lookup, `d[k]` returning `none` where Python raises `KeyError`. -/
def Snapshot.lookup (d : Snapshot) (k : Int) : Option RawRecord :=
  List.lookup k d

/-- Dictionary assignment `d[k] = v`: overwrites any earlier binding of `k`. -/
def Snapshot.insert (d : Snapshot) (k : Int) (v : RawRecord) : Snapshot :=
  (k, v) :: List.filter (fun p => p.1 != k) d

/-- Decimal value of an ASCII digit, `none` otherwise. -/
def digitVal (c : Char) : Option Nat :=
  if c.isDigit then some (c.toNat - 48) else none

/-- A non-empty all-digit character list read as a base-10 natural. -/
def parseNat (cs : List Char) : Option Nat :=
  match cs with
  | [] => none
  | _ =>
      List.foldlM (fun acc c => Option.map (fun d => acc * 10 + d) (digitVal c)) 0 cs

/-- Python `int(x)` on an optional string field: an optional sign followed
by one or more decimal digits (Python's `int` also ignores surrounding
whitespace, which cannot occur inside a tab-delimited condor field).
`none` input models `int(None)` raising `TypeError`, and an unparsable
string models `ValueError`. -/
def pyInt (s : Option String) : Option Int :=
  Option.bind s (fun t =>
    match t.data with
    | '-' :: rest => Option.map (fun n => -(n : Int)) (parseNat rest)
    | '+' :: rest => Option.map (fun n => (n : Int)) (parseNat rest)
    | cs => Option.map (fun n => (n : Int)) (parseNat cs))

/-- The `JobStatus` translation dictionary from
`HTCondorSiteAdapter.__init__` (htcondor.py lines 53-62): the
`StaticMapping` passed as the `translator` default of the `JobStatus`
conversion lambda. -/
def jobStatusTable : List (String × ResourceStatus) :=
  [("0", ResourceStatus.Error),
   ("1", ResourceStatus.Booting),
   ("2", ResourceStatus.Running),
   ("3", ResourceStatus.Stopped),
   ("4", ResourceStatus.Deleted),
   ("5", ResourceStatus.Error),
   ("6", ResourceStatus.Error)]

/-- `translator[x]` for the `JobStatus` conversion function: dictionary
lookup in `jobStatusTable`; `none` models the `KeyError` a code outside
the table raises (the spec's fail-loudly translation error). -/
def jobStatusTranslator (x : String) : Option ResourceStatus :=
  List.lookup x jobStatusTable

/-- Translated response record (`AttributeDict` in the source) carrying the
canonical fields that `key_translator` (htcondor.py lines 48-49) extracts
from a condor queue row: `resource_id` from `ClusterId`, `resource_status`
from `JobStatus`. (`created`/`updated` source fields never occur in a
condor queue row, so those canonical fields stay absent on the
status path; a field is `none` when absent from the produced record.) -/
structure TranslatedResponse where
  resource_id : Option Int
  resource_status : Option ResourceStatus
deriving DecidableEq, Repr

/-- Modelled from the spec: `SiteAdapter.handle_response`
(`interfaces/siteadapter.py`, not under `src/`). Per Section 4.1, given a
RawRecord and the configuration mapping canonical field to (source field,
conversion function), it produces a result record with one entry per
canonical field, applying each conversion function to the corresponding raw
value; a canonical field whose source field is absent from the record is
skipped. Instantiated with the `key_translator` and `translator_functions`
of `HTCondorSiteAdapter.__init__` (htcondor.py lines 48-65). -/
def handle_response (r : RawRecord) : TranslatedResponse :=
  { resource_id := pyInt r.ClusterId
    resource_status := Option.bind r.JobStatus jobStatusTranslator }

/-- State of the `AsyncCacheMap` (`utilities/asynccachemap.py`, not under
`src/`): the snapshot dictionary, its `last_update` timestamp, and the
configured maximum age in seconds. Modelled from the spec, Sections 3
and 4.3. -/
structure AsyncCacheMap where
  data : Snapshot
  last_update : Int
  max_age : Int
deriving DecidableEq, Repr

/-- Modelled from the spec: `AsyncCacheMap.update_status`
(`utilities/asynccachemap.py`, not under `src/`), Sections 4.3 and 4.2.
If the held snapshot is within the age bound it returns without I/O;
if stale it performs one fetch: on success the snapshot is replaced
wholesale and `last_update` set to the current time, on failure the prior
snapshot and `last_update` are retained and the failure is propagated to
the caller (returned as `some` exception). The fetch outcome (the result
of awaiting the update coroutine) and the current time are explicit
parameters. -/
def AsyncCacheMap.update_status (cache : AsyncCacheMap) (now : Int)
    (fetched : Except PyException Snapshot) : AsyncCacheMap × Option PyException :=
  if now - cache.last_update > cache.max_age then
    match fetched with
    | Except.ok snap =>
        ({ data := snap, last_update := now, max_age := cache.max_age }, none)
    | Except.error e => (cache, some e)
  else
    (cache, none)

/-- One line of `condor_q -af:t` output split at tab characters into the
four positional fields (csv.DictReader with the fixed fieldnames tuple). -/
def parseQueueRow (line : String) : RawRecord :=
  { Owner := (line.splitOn "\t")[0]?
    JobStatus := (line.splitOn "\t")[1]?
    ClusterId := (line.splitOn "\t")[2]?
    ProcId := (line.splitOn "\t")[3]? }

/-- The rows `csv.DictReader` yields for the command's stdout: one per
non-blank line (the csv module skips blank lines). -/
def parseQueueOutput (stdout : String) : List RawRecord :=
  List.map parseQueueRow (List.filter (fun l => l != "") (stdout.splitOn "\n"))

/-- The loop `htcondor_queue[int(row['ClusterId'])] = row` over the parsed
rows (htcondor.py lines 36-37), starting from the empty dictionary;
`none` models the `int` conversion raising on a malformed row (the spec's
fatal programming/environment error, Section 4.2). -/
def buildQueue (rows : List RawRecord) : Option Snapshot :=
  List.foldlM
    (fun acc row => Option.map (fun cid => Snapshot.insert acc cid row) (pyInt row.ClusterId))
    ([] : Snapshot) rows

/-- `htcondor_queue_updater` (htcondor.py lines 22-38): awaits
`executor.run_command("condor_q -af:t Owner JobStatus ClusterId ProcId")`
(its outcome is the `condor_queue` parameter here); a
`CommandExecutionFailure` is logged and re-raised unchanged; on success the
stdout is parsed into the `htcondor_queue` dictionary. -/
def htcondor_queue_updater (condor_queue : Except PyException CommandResult) :
    Except PyException Snapshot :=
  match condor_queue with
  | Except.error e => Except.error e
  | Except.ok cq =>
      match buildQueue (parseQueueOutput cq.stdout) with
      | some q => Except.ok q
      | none => Except.error (PyException.ValueError "invalid literal for int()")

/-- `ResourceAttributes` as read by this adapter: the orchestration-owned
record's `resource_id` and `created` timestamp (the only fields
`resource_status` consults). -/
structure ResourceAttributes where
  resource_id : Int
  created : Int
deriving DecidableEq, Repr

namespace HTCondorSiteAdapter

/-- The part of `HTCondorSiteAdapter.resource_status` after
`update_status` has returned (htcondor.py lines 93-103): look the
identifier up in the cache; on `KeyError` compare the cache's
`last_update` with the resource's `created` timestamp —
`(last_update - created).total_seconds() < 0` raises
`TardisResourceStatusUpdateFailed`, otherwise the adapter returns
`AttributeDict(resource_status=ResourceStatus.Deleted)`; when the lookup
succeeds the raw record is passed through `handle_response`. -/
def resource_status_body (q : AsyncCacheMap) (attrs : ResourceAttributes) :
    Except PyException TranslatedResponse :=
  match Snapshot.lookup q.data attrs.resource_id with
  | some raw => Except.ok (handle_response raw)
  | none =>
      if q.last_update - attrs.created < 0 then
        Except.error PyException.TardisResourceStatusUpdateFailed
      else
        Except.ok { resource_id := none, resource_status := some ResourceStatus.Deleted }

/-- `HTCondorSiteAdapter.resource_status` (htcondor.py lines 91-103):
first `await self._htcondor_queue.update_status()` (whose failure
propagates to the caller), then the lookup/race logic of
`resource_status_body` on the resulting cache state. -/
def resource_status (queue : AsyncCacheMap) (now : Int)
    (fetched : Except PyException Snapshot) (attrs : ResourceAttributes) :
    Except PyException TranslatedResponse :=
  match AsyncCacheMap.update_status queue now fetched with
  | (_, some e) => Except.error e
  | (q, none) => resource_status_body q attrs

end HTCondorSiteAdapter

/-- The executor capability (Section 6): `run_command` is an async method
whose awaited outcome is a `CommandResult` or a raised exception. -/
structure Executor where
  run_command : String → Except PyException CommandResult

/-- A Python value as it flows out of the adapter's coroutine methods:
either a `CommandResult` (the awaited outcome of `run_command`) or a bare
un-awaited coroutine object, identified by the command string the call was
built from. Calling an async function without `await` only creates such a
suspended coroutine object; none of its body (and hence no external
command) runs. -/
inductive PyValue where
  | commandResult (result : CommandResult)
  | coroutine (command : String)
deriving DecidableEq, Repr

namespace HTCondorSiteAdapter

/-- `HTCondorSiteAdapter.terminate_resource` (htcondor.py lines 109-112):
`response = self._executor.run_command(f"condor_rm {...}")` lacks an
`await` (unlike every other `run_command` call site in the file), so the
method returns the un-awaited coroutine object; the executor is never
driven and `condor_rm` never runs. -/
def terminate_resource (_executor : Executor) (attrs : ResourceAttributes) : PyValue :=
  PyValue.coroutine ("condor_rm " ++ toString attrs.resource_id)

/-- What `terminate_resource` would return with the missing `await` in
place, per the spec's `terminate_resource(attrs) -> command result`
(Section 6): the executor's result of the `condor_rm` command. Stated for
comparison with the source's `terminate_resource` above. -/
def terminate_resource_awaited (ex : Executor) (attrs : ResourceAttributes) :
    Except PyException PyValue :=
  Except.map PyValue.commandResult
    (ex.run_command ("condor_rm " ++ toString attrs.resource_id))

/-- `HTCondorSiteAdapter.stop_resource` (htcondor.py lines 105-107):
`return await self.terminate_resource(resource_attributes)` — awaiting the
`terminate_resource` coroutine runs its body, so the awaited result of
`stop_resource` is exactly the return value of `terminate_resource`'s
body. -/
def stop_resource (ex : Executor) (attrs : ResourceAttributes) : PyValue :=
  terminate_resource ex attrs

/-- `HTCondorSiteAdapter.handle_exceptions` (htcondor.py lines 114-121) as
a transformer on the exception raised inside the guarded block:
`TardisResourceStatusUpdateFailed` is re-raised unchanged; any other
exception `ex` becomes `raise TardisError from ex`. -/
def handle_exceptions (ex : PyException) : PyException :=
  match ex with
  | PyException.TardisResourceStatusUpdateFailed =>
      PyException.TardisResourceStatusUpdateFailed
  | e => PyException.TardisError e

end HTCondorSiteAdapter

/-- The site configuration fields this adapter reads at construction
(Section 6): the maximum cache age in minutes and the submission template
identifier (`jdl`). -/
structure HTCondorConfiguration where
  max_age : Int
  jdl : String
deriving DecidableEq, Repr

/-- The `AsyncCacheMap` as constructed in `HTCondorSiteAdapter.__init__`
(htcondor.py lines 67-68): `max_age=self.configuration.max_age * 60`.
The initial snapshot and `last_update` are modelled from the spec
(`utilities/asynccachemap.py` is not under `src/`): an empty snapshot
with the epoch timestamp, so the first `update_status` refreshes. -/
def HTCondorSiteAdapter.init_queue (conf : HTCondorConfiguration) : AsyncCacheMap :=
  { data := [], last_update := 0, max_age := conf.max_age * 60 }

/-- The raw record of the spec's example scenario (Section 8):
`{ClusterId: "42", JobStatus: "1"}`. -/
def raw42 : RawRecord :=
  { Owner := none, JobStatus := some "1", ClusterId := some "42", ProcId := none }

/-- A concrete executor whose every command succeeds with empty output. -/
def executor0 : Executor :=
  { run_command := fun _ => Except.ok { stdout := "", exit_status := 0 } }

/-! ## Claims -/

/-- C1: for every resource whose identifier is absent from the current
snapshot (the cache state after `update_status` performed no refresh or a
successful one) and whose recorded `created` timestamp is strictly after
the cache's `last_update` timestamp, `resource_status` raises the
retryable `TardisResourceStatusUpdateFailed` and never returns any status,
in particular never `Deleted`. -/
theorem resource_status_race_window_indeterminate
    (queue q : AsyncCacheMap) (now : Int) (fetched : Except PyException Snapshot)
    (attrs : ResourceAttributes)
    (hupd : AsyncCacheMap.update_status queue now fetched = (q, none))
    (habsent : Snapshot.lookup q.data attrs.resource_id = none)
    (hafter : q.last_update < attrs.created) :
    HTCondorSiteAdapter.resource_status queue now fetched attrs =
      Except.error PyException.TardisResourceStatusUpdateFailed ∧
    ∀ r : TranslatedResponse,
      HTCondorSiteAdapter.resource_status queue now fetched attrs ≠ Except.ok r := by
  have h1 : HTCondorSiteAdapter.resource_status queue now fetched attrs =
      Except.error PyException.TardisResourceStatusUpdateFailed := by
    unfold HTCondorSiteAdapter.resource_status
    rw [hupd]
    show HTCondorSiteAdapter.resource_status_body q attrs = _
    unfold HTCondorSiteAdapter.resource_status_body
    rw [habsent, if_pos (by omega)]
  refine ⟨h1, ?_⟩
  intro r hr
  rw [h1] at hr
  exact Except.noConfusion hr

/-- Witness for C1: the spec's example scenario with identifier 42 removed
from the snapshot and `created = T + 1` for `last_update = T = 100`
(cache fresh, so no refresh happens). -/
theorem resource_status_race_window_indeterminate_witness :
    HTCondorSiteAdapter.resource_status
        { data := [], last_update := 100, max_age := 600 } 100 (Except.ok [])
        { resource_id := 42, created := 101 } =
      Except.error PyException.TardisResourceStatusUpdateFailed ∧
    ∀ r : TranslatedResponse,
      HTCondorSiteAdapter.resource_status
          { data := [], last_update := 100, max_age := 600 } 100 (Except.ok [])
          { resource_id := 42, created := 101 } ≠ Except.ok r :=
  resource_status_race_window_indeterminate
    { data := [], last_update := 100, max_age := 600 }
    { data := [], last_update := 100, max_age := 600 } 100 (Except.ok [])
    { resource_id := 42, created := 101 } (by decide) (by decide) (by decide)

/-- C2: for every resource whose identifier is absent from the current
snapshot and whose recorded `created` timestamp is at most the cache's
`last_update` timestamp (equality included), `resource_status` returns
canonical status `Deleted`. -/
theorem resource_status_absent_stale_deleted
    (queue q : AsyncCacheMap) (now : Int) (fetched : Except PyException Snapshot)
    (attrs : ResourceAttributes)
    (hupd : AsyncCacheMap.update_status queue now fetched = (q, none))
    (habsent : Snapshot.lookup q.data attrs.resource_id = none)
    (hbefore : attrs.created ≤ q.last_update) :
    HTCondorSiteAdapter.resource_status queue now fetched attrs =
      Except.ok { resource_id := none, resource_status := some ResourceStatus.Deleted } := by
  unfold HTCondorSiteAdapter.resource_status
  rw [hupd]
  show HTCondorSiteAdapter.resource_status_body q attrs = _
  unfold HTCondorSiteAdapter.resource_status_body
  rw [habsent, if_neg (by omega)]

/-- Witness for C2: same scenario with `created = last_update = 100`
exactly — the equality case still yields `Deleted`. -/
theorem resource_status_absent_stale_deleted_witness :
    HTCondorSiteAdapter.resource_status
        { data := [], last_update := 100, max_age := 600 } 100 (Except.ok [])
        { resource_id := 42, created := 100 } =
      Except.ok { resource_id := none, resource_status := some ResourceStatus.Deleted } :=
  resource_status_absent_stale_deleted
    { data := [], last_update := 100, max_age := 600 }
    { data := [], last_update := 100, max_age := 600 } 100 (Except.ok [])
    { resource_id := 42, created := 100 } (by decide) (by decide) (by decide)

/-- C3: whenever the identifier is present in the current snapshot,
`resource_status` returns `handle_response` of the stored raw record; and
the `JobStatus` translation of each of the six documented raw codes
"1"-"6" is exactly the corresponding canonical status — "1" `Booting`,
"2" `Running`, "3" `Stopped`, "4" `Deleted`, "5" `Error`, "6" `Error`. -/
theorem resource_status_present_translates :
    (∀ (queue q : AsyncCacheMap) (now : Int) (fetched : Except PyException Snapshot)
        (attrs : ResourceAttributes) (raw : RawRecord),
      AsyncCacheMap.update_status queue now fetched = (q, none) →
      Snapshot.lookup q.data attrs.resource_id = some raw →
      HTCondorSiteAdapter.resource_status queue now fetched attrs =
        Except.ok (handle_response raw)) ∧
    jobStatusTranslator "1" = some ResourceStatus.Booting ∧
    jobStatusTranslator "2" = some ResourceStatus.Running ∧
    jobStatusTranslator "3" = some ResourceStatus.Stopped ∧
    jobStatusTranslator "4" = some ResourceStatus.Deleted ∧
    jobStatusTranslator "5" = some ResourceStatus.Error ∧
    jobStatusTranslator "6" = some ResourceStatus.Error := by
  refine ⟨?_, rfl, rfl, rfl, rfl, rfl, rfl⟩
  intro queue q now fetched attrs raw hupd hfound
  unfold HTCondorSiteAdapter.resource_status
  rw [hupd]
  show HTCondorSiteAdapter.resource_status_body q attrs = _
  unfold HTCondorSiteAdapter.resource_status_body
  rw [hfound]

/-- Witness for C3: the spec's example — snapshot `{42: {ClusterId: "42",
JobStatus: "1"}}` with `last_update = 100`, resource `resource_id = 42`:
the resolver returns `Booting` (with `resource_id` translated to 42). -/
theorem resource_status_present_translates_witness :
    HTCondorSiteAdapter.resource_status
        { data := [(42, raw42)], last_update := 100, max_age := 600 } 100 (Except.ok [])
        { resource_id := 42, created := 100 } =
      Except.ok { resource_id := some 42, resource_status := some ResourceStatus.Booting } := by
  have h := resource_status_present_translates.1
    { data := [(42, raw42)], last_update := 100, max_age := 600 }
    { data := [(42, raw42)], last_update := 100, max_age := 600 } 100 (Except.ok [])
    { resource_id := 42, created := 100 } raw42 (by decide) (by decide)
  rw [h]
  have hr : handle_response raw42 =
      { resource_id := some 42, resource_status := some ResourceStatus.Booting } := by decide
  rw [hr]

/-- C5: if the external queue query fails, `htcondor_queue_updater`
re-raises the typed `CommandExecutionFailure` unchanged, and a stale
cache's `update_status` driven by that failing fetch leaves the previously
held snapshot and its `last_update` timestamp completely unchanged while
surfacing the failure to the caller. -/
theorem update_status_failure_preserves_snapshot
    (cache : AsyncCacheMap) (now : Int) (message : String)
    (hstale : now - cache.last_update > cache.max_age) :
    htcondor_queue_updater (Except.error (PyException.CommandExecutionFailure message)) =
      Except.error (PyException.CommandExecutionFailure message) ∧
    AsyncCacheMap.update_status cache now
        (htcondor_queue_updater (Except.error (PyException.CommandExecutionFailure message))) =
      (cache, some (PyException.CommandExecutionFailure message)) := by
  refine ⟨rfl, ?_⟩
  unfold AsyncCacheMap.update_status
  rw [if_pos hstale]
  rfl

/-- Witness for C5: a cache holding the example snapshot, 1000 seconds past
a 600-second age bound, driven by a failing fetch: the returned state still
holds the same snapshot and `last_update`, and the failure is returned. -/
theorem update_status_failure_preserves_snapshot_witness :
    htcondor_queue_updater (Except.error (PyException.CommandExecutionFailure "boom")) =
      Except.error (PyException.CommandExecutionFailure "boom") ∧
    AsyncCacheMap.update_status { data := [(42, raw42)], last_update := 100, max_age := 600 }
        1100 (htcondor_queue_updater
          (Except.error (PyException.CommandExecutionFailure "boom"))) =
      ({ data := [(42, raw42)], last_update := 100, max_age := 600 },
        some (PyException.CommandExecutionFailure "boom")) :=
  update_status_failure_preserves_snapshot
    { data := [(42, raw42)], last_update := 100, max_age := 600 } 1100 "boom" (by decide)

/-- C6: inside `handle_exceptions`, `TardisResourceStatusUpdateFailed` is
always re-raised unchanged, and every other exception is wrapped into the
adapter-level `TardisError` (with the original exception as its cause). -/
theorem handle_exceptions_wraps_all_but_indeterminate :
    HTCondorSiteAdapter.handle_exceptions PyException.TardisResourceStatusUpdateFailed =
      PyException.TardisResourceStatusUpdateFailed ∧
    ∀ e : PyException, e ≠ PyException.TardisResourceStatusUpdateFailed →
      HTCondorSiteAdapter.handle_exceptions e = PyException.TardisError e := by
  refine ⟨rfl, ?_⟩
  intro e he
  cases e with
  | CommandExecutionFailure m => rfl
  | TardisResourceStatusUpdateFailed => exact absurd rfl he
  | TardisError c => rfl
  | KeyError => rfl
  | ValueError m => rfl

/-- Witness for C6: a `KeyError` (which is not the indeterminate-status
error) is wrapped into `TardisError` with itself as cause. -/
theorem handle_exceptions_wraps_all_but_indeterminate_witness :
    HTCondorSiteAdapter.handle_exceptions PyException.KeyError =
      PyException.TardisError PyException.KeyError :=
  handle_exceptions_wraps_all_but_indeterminate.2 PyException.KeyError (by decide)

/-- C7 (code bug): `terminate_resource` does not return the executor's
command result — the missing `await` on line 111 makes it return the
un-awaited `run_command` coroutine object, so `condor_rm` never executes.
Evaluated at `resource_id = 1479` with an executor that would have
succeeded: the returned value is the bare coroutine, differs from every
possible command result, and differs from what the awaited call
(`terminate_resource_awaited`, the spec's contract) yields. -/
theorem terminate_resource_returns_unawaited_coroutine :
    HTCondorSiteAdapter.terminate_resource executor0
        { resource_id := 1479, created := 0 } =
      PyValue.coroutine "condor_rm 1479" ∧
    (∀ r : CommandResult,
      HTCondorSiteAdapter.terminate_resource executor0
          { resource_id := 1479, created := 0 } ≠ PyValue.commandResult r) ∧
    HTCondorSiteAdapter.terminate_resource_awaited executor0
        { resource_id := 1479, created := 0 } =
      Except.ok (PyValue.commandResult { stdout := "", exit_status := 0 }) := by
  refine ⟨by decide, ?_, rfl⟩
  intro r hr
  exact PyValue.noConfusion hr

/-- C8: `stop_resource` behaves identically to `terminate_resource` on
every executor and every input — stopping is not supported by HTCondor, so
`stop_resource` awaits `terminate_resource` and returns its result. -/
theorem stop_resource_aliases_terminate
    (ex : Executor) (attrs : ResourceAttributes) :
    HTCondorSiteAdapter.stop_resource ex attrs =
      HTCondorSiteAdapter.terminate_resource ex attrs :=
  rfl

/-- C9: the cache constructed in `__init__` carries a maximum age of
exactly `max_age * 60` seconds for every configured `max_age` in
minutes. -/
theorem init_queue_max_age_minutes_to_seconds (conf : HTCondorConfiguration) :
    (HTCondorSiteAdapter.init_queue conf).max_age = conf.max_age * 60 :=
  rfl

/-- C10: the raw `JobStatus` translation table contains seven codes — "0"
through "6", not six — and is not injective: the three distinct codes "0",
"5" and "6" all translate to the same canonical status `Error`. -/
theorem jobStatusTable_seven_codes_not_injective :
    jobStatusTable.length = 7 ∧
    List.map Prod.fst jobStatusTable = ["0", "1", "2", "3", "4", "5", "6"] ∧
    jobStatusTranslator "0" = some ResourceStatus.Error ∧
    jobStatusTranslator "5" = some ResourceStatus.Error ∧
    jobStatusTranslator "6" = some ResourceStatus.Error ∧
    ("0" : String) ≠ "5" ∧ ("0" : String) ≠ "6" ∧ ("5" : String) ≠ "6" := by
  refine ⟨rfl, rfl, rfl, rfl, rfl, by decide, by decide, by decide⟩

end Tardis
